import Mathlib

/-!
# Verification of the RSE database bootstrap (`rse.py`, `RseApplication`)

Shallow embedding of the startup orchestration in `src/rse.py`:

* `convergeBody` embeds the body of the second retry loop of
  `init_database` (lines 194-234): dropping the two deprecated indexes,
  ensuring the `get_events` index, reconciling the `ttl` index against the
  configured `event-ttl`, and seeding the `last_known_id` counter document.
* `connLoop` embeds the first retry loop (lines 140-185): the master
  (primary) connection, the general connection (plain client, or a
  replica-set client wrapped in its own catch-all handler), with
  `AutoReconnect` retried after a 0.5-second sleep and any other exception
  fatal.  Note the source sets `db_connections_ok = True` without a
  `break`, so this loop always runs all ten iterations unless it exits.
* `eventsLoop` embeds the second retry loop (lines 193-244), which does
  `break` on success.
* `initDatabase` and `rseInit` embed `init_database` and the provider
  selection in `RseApplication.__init__` (lines 106-115).

MongoDB state is modelled per index name touched by the code (indexes are
keyed by name, so at most one index named `ttl` can exist), and the
`counters` collection by the single `_id = last_known_id` document the
code reads and writes (documents are keyed by `_id`, so at most one such
document can exist).  Exceptions are modelled symbolically by class, as the
handlers in the source discriminate on class only.
-/

namespace RSE

/-- The exception classes `init_database` discriminates on.
`opFailIndexNotFound`, `opFailOther` and `dupKey` are all instances of
`pymongo.errors.OperationFailure` (`DuplicateKeyError` is a subclass);
`autoReconnect` is `pymongo.errors.AutoReconnect`; `otherError` is any
other exception. -/
inductive Exc
  | opFailIndexNotFound
  | opFailOther
  | dupKey
  | autoReconnect
  | otherError
  deriving DecidableEq, Repr

/-- Membership in the `pymongo.errors.OperationFailure` class, which the
inner `except` handlers around the deprecated-index drops catch. -/
def Exc.isOperationFailure : Exc → Bool
  | .opFailIndexNotFound => true
  | .opFailOther => true
  | .dupKey => true
  | _ => false

/-- State of the `events` collection's indexes and of the `counters`
collection, restricted to what `init_database` touches.
`idxTtl = none`: no index named `ttl`; `idxTtl = some none`: a `ttl` index
without an `expireAfterSeconds` key; `idxTtl = some (some v)`: a `ttl`
index with `expireAfterSeconds = v`.  `counter = some c`: the document
`{_id: 'last_known_id', c: c}` exists. -/
structure EventsState where
  idxUuidChannel : Bool
  idxCreatedAt1 : Bool
  idxGetEvents : Bool
  idxTtl : Option (Option Int)
  counter : Option Int
  deriving DecidableEq, Repr

/-- An index drop or creation actually performed against the store. -/
inductive Mutation
  | dropped (name : String)
  | created (name : String)
  deriving DecidableEq, Repr

/-- The index name a mutation acts on. -/
def Mutation.name : Mutation → String
  | .dropped n => n
  | .created n => n

/-- Fault injection for one execution of the events-collection loop body:
for each database call, an optional exception that call raises instead of
completing.  `concurrentCounterInsert` models a concurrent bootstrap
inserting the counter document between this process's `find_one` and its
`insert`, making the `insert` raise `DuplicateKeyError`. -/
structure Faults where
  dropUuidChannel : Option Exc
  dropCreatedAt : Option Exc
  ensureGetEvents : Option Exc
  indexInfo : Option Exc
  dropTtl : Option Exc
  ensureTtl : Option Exc
  findCounter : Option Exc
  insertCounter : Option Exc
  concurrentCounterInsert : Bool
  deriving DecidableEq, Repr

/-- No injected faults: every database call follows its nominal
semantics. -/
def noFaults : Faults := ⟨none, none, none, none, none, none, none, none, false⟩

/-- Semantics of `drop_index`: raises the injected exception if any;
otherwise drops the index when present and raises an "index not found"
`OperationFailure` when absent.  Returns the index's presence after the
call and whether a drop was actually performed. -/
def dropIndexPrim (injected : Option Exc) (present : Bool) :
    Except Exc (Bool × Bool) :=
  match injected with
  | some e => .error e
  | none => if present then .ok (false, true) else .error .opFailIndexNotFound

/-- Lines 197-201 / 203-207: `try: drop_index(...) except
pymongo.errors.OperationFailure: pass`.  Any `OperationFailure` (not just
"index not found") is swallowed, leaving the index state as it was; other
exceptions propagate. -/
def guardedDrop (injected : Option Exc) (present : Bool) :
    Except Exc (Bool × Bool) :=
  match dropIndexPrim injected present with
  | .ok r => .ok r
  | .error e => if e.isOperationFailure then .ok (present, false) else .error e

/-- Semantics of `ensure_index`: raises the injected exception if any;
otherwise creates the index when absent (returning `true`) and is a no-op
when an index of that name is already present. -/
def ensureIndexPrim (injected : Option Exc) (present : Bool) :
    Except Exc Bool :=
  match injected with
  | some e => .error e
  | none => .ok !present

/-- Result of one execution of the events-loop body: the exception that
escaped to the outer handlers (if any), the store state when the body
stopped, the index mutations performed, and how many counter documents
this process inserted. -/
abbrev BodyResult := Option Exc × EventsState × List Mutation × Nat

/-- Lines 223-231: `ensure_index('created_at', expireAfterSeconds=event_ttl,
name='ttl')`, then the counter seeding: `find_one({'_id': 'last_known_id'})`
and, when absent, `insert({'_id': 'last_known_id', 'c': 0})`.  A
`DuplicateKeyError` raised by the losing insert in the concurrent-bootstrap
race escapes to the outer handlers (no inner handler covers it). -/
def ttlEnsureAndSeed (eventTtl : Int) (f : Faults) (s : EventsState)
    (muts : List Mutation) : BodyResult :=
  match ensureIndexPrim f.ensureTtl s.idxTtl.isSome with
  | .error e => (some e, s, muts, 0)
  | .ok didCreate =>
    let s2 : EventsState :=
      { s with idxTtl := if s.idxTtl.isSome then s.idxTtl else some (some eventTtl) }
    let m2 := muts ++ (if didCreate then [Mutation.created "ttl"] else [])
    match f.findCounter with
    | some e => (some e, s2, m2, 0)
    | none =>
      if s2.counter.isSome then (none, s2, m2, 0)
      else
        match f.insertCounter with
        | some e => (some e, s2, m2, 0)
        | none =>
          if f.concurrentCounterInsert then
            (some Exc.dupKey, { s2 with counter := some 0 }, m2, 0)
          else
            (none, { s2 with counter := some 0 }, m2, 1)

/-- Lines 215-221: read `index_information()`; if an index named `ttl`
exists and `('expireAfterSeconds' not in index) or
index['expireAfterSeconds'] != event_ttl`, drop it.  Then continue with
`ttlEnsureAndSeed`.  The `drop_index('ttl')` here is not wrapped in any
inner handler. -/
def ttlReconcile (eventTtl : Int) (f : Faults) (s : EventsState)
    (muts : List Mutation) : BodyResult :=
  match f.indexInfo with
  | some e => (some e, s, muts, 0)
  | none =>
    match s.idxTtl with
    | none => ttlEnsureAndSeed eventTtl f s muts
    | some info =>
      let mismatch : Bool :=
        match info with
        | none => true
        | some v => v != eventTtl
      if mismatch then
        match f.dropTtl with
        | some e => (some e, s, muts, 0)
        | none =>
          ttlEnsureAndSeed eventTtl f { s with idxTtl := none }
            (muts ++ [Mutation.dropped "ttl"])
      else ttlEnsureAndSeed eventTtl f s muts

/-- The body of the events-collection loop (lines 194-234): drop the two
deprecated indexes (each guarded by `except OperationFailure: pass`),
ensure the `get_events` index, reconcile and ensure the `ttl` index, seed
the counter document. -/
def convergeBody (eventTtl : Int) (f : Faults) (s0 : EventsState) : BodyResult :=
  match guardedDrop f.dropUuidChannel s0.idxUuidChannel with
  | .error e => (some e, s0, [], 0)
  | .ok (p1, did1) =>
    let s1 := { s0 with idxUuidChannel := p1 }
    let m1 := if did1 then [Mutation.dropped "uuid_1_channel_1"] else []
    match guardedDrop f.dropCreatedAt s1.idxCreatedAt1 with
    | .error e => (some e, s1, m1, 0)
    | .ok (p2, did2) =>
      let s2 := { s1 with idxCreatedAt1 := p2 }
      let m2 := m1 ++ (if did2 then [Mutation.dropped "created_at_1"] else [])
      match ensureIndexPrim f.ensureGetEvents s2.idxGetEvents with
      | .error e => (some e, s2, m2, 0)
      | .ok did3 =>
        let s3 := { s2 with idxGetEvents := true }
        let m3 := m2 ++ (if did3 then [Mutation.created "get_events"] else [])
        ttlReconcile eventTtl f s3 m3

/-- Outcomes raised by the database calls of one connection attempt
(lines 141-175): `master` is the exception (if any) from constructing the
primary `MongoClient` (lines 143-147); `general` is the exception (if any)
from constructing the general connection — the secondary-preferred
`MongoClient` when no replica set is configured (lines 155-159), or the
`MongoReplicaSetClient` otherwise (lines 162-167). -/
structure ConnAttemptEnv where
  master : Option Exc
  general : Option Exc
  deriving DecidableEq, Repr

/-- How one iteration of the connection loop ends: `success` sets
`db_connections_ok = True`; `transientRetry` is the outer
`except AutoReconnect` handler (warn, sleep 0.5, continue);
`fatalRsExit` is the inner `except Exception` handler around
`MongoReplicaSetClient` (log "Mongo connection exception", `sys.exit(1)`);
`fatalGeneralExit` is the outer `except Exception` handler (log and
`sys.exit(1)`). -/
inductive IterOutcome
  | success
  | transientRetry
  | fatalRsExit
  | fatalGeneralExit
  deriving DecidableEq, Repr

/-- One iteration of the connection loop body (lines 141-185).  The master
client is constructed first; its exceptions reach the outer handlers.
When a replica set is configured (`rsConfigured`), the general connection
is built inside `try: ... except Exception: sys.exit(1)` — so ANY
exception there, `AutoReconnect` included, exits; otherwise the general
client's exceptions also reach the outer handlers. -/
def connIter (rsConfigured : Bool) (a : ConnAttemptEnv) : IterOutcome :=
  match a.master with
  | some Exc.autoReconnect => .transientRetry
  | some _ => .fatalGeneralExit
  | none =>
    match a.general with
    | none => .success
    | some e =>
      if rsConfigured then .fatalRsExit
      else
        match e with
        | Exc.autoReconnect => .transientRetry
        | _ => .fatalGeneralExit

/-- How the connection loop (`for i in range(10)`) ends: `exited` is a
`sys.exit(1)` from inside the loop, carrying the logged error message
head; `finished` is the loop running out of iterations, carrying the final
`db_connections_ok`.  Both carry the number of iterations begun and the
number of 0.5-second sleeps performed. -/
inductive ConnOutcome
  | exited (msg : String) (itersRun : Nat) (sleeps : Nat)
  | finished (ok : Bool) (itersRun : Nat) (sleeps : Nat)
  deriving DecidableEq, Repr

/-- The connection retry loop (lines 139-185).  Faithful to the source:
on success `db_connections_ok` is set to `True` but there is NO `break`,
so the loop continues with the remaining iterations; on `AutoReconnect`
it sleeps 0.5 and continues; any other exception exits the process. -/
def connLoop (rsConfigured : Bool) (env : Nat → ConnAttemptEnv) :
    Nat → Nat → Bool → Nat → ConnOutcome
  | 0, i, ok, sleeps => .finished ok i sleeps
  | fuel + 1, i, ok, sleeps =>
    match connIter rsConfigured (env i) with
    | .success => connLoop rsConfigured env fuel (i + 1) true sleeps
    | .transientRetry => connLoop rsConfigured env fuel (i + 1) ok (sleeps + 1)
    | .fatalRsExit => .exited "Mongo connection exception" (i + 1) sleeps
    | .fatalGeneralExit =>
      .exited "Error on startup while attempting to connect to DB" (i + 1) sleeps

/-- The whole connection phase: ten iterations starting from
`db_connections_ok = False`. -/
def connPhase (rsConfigured : Bool) (env : Nat → ConnAttemptEnv) : ConnOutcome :=
  connLoop rsConfigured env 10 0 false 0

/-- How the events-collection loop ends: `converged` is the `break` after
`db_events_collection_ok = True`, carrying the final store state, the
index mutations and counter inserts of the successful iteration, the
number of iterations begun and sleeps performed; `exitedFatal` is the
outer `except Exception` handler's `sys.exit(1)`; `exhausted` is the loop
running out of its ten iterations without success. -/
inductive EventsOutcome
  | converged (s : EventsState) (muts : List Mutation) (inserts : Nat)
      (itersUsed : Nat) (sleeps : Nat)
  | exitedFatal (e : Exc) (s : EventsState) (itersUsed : Nat) (sleeps : Nat)
  | exhausted (s : EventsState) (sleeps : Nat)
  deriving DecidableEq, Repr

/-- The events-collection retry loop (lines 192-244).  On a body run with
no escaping exception it sets `db_events_collection_ok = True` and
`break`s; on `AutoReconnect` it sleeps 0.5 and continues (keeping any
partial mutations already applied); any other exception exits. -/
def eventsLoop (eventTtl : Int) (faults : Nat → Faults) :
    Nat → Nat → EventsState → Nat → EventsOutcome
  | 0, _, s, sleeps => .exhausted s sleeps
  | fuel + 1, i, s, sleeps =>
    match convergeBody eventTtl (faults i) s with
    | (none, s', muts, ins) => .converged s' muts ins (i + 1) sleeps
    | (some Exc.autoReconnect, s', _, _) =>
      eventsLoop eventTtl faults fuel (i + 1) s' (sleeps + 1)
    | (some e, s', _, _) => .exitedFatal e s' (i + 1) sleeps

/-- The whole events-collection phase: ten iterations from the given
store state. -/
def eventsPhase (eventTtl : Int) (faults : Nat → Faults) (s : EventsState) :
    EventsOutcome :=
  eventsLoop eventTtl faults 10 0 s 0

/-- The whole of `init_database` (lines 133-250): the connection phase, the
`db_connections_ok` check (logging "Could not set up db connections" and
exiting when false), the events phase, and the `db_events_collection_ok`
check (logging "Could not setup events connections" and exiting when
the loop exhausts).  A `sys.exit(1)` is modelled as `.error` carrying the
logged diagnostic; `.ok` carries the converged store state standing for
the returned `(mongo_db, mongo_db_master)` context. -/
def initDatabase (eventTtl : Int) (rsConfigured : Bool)
    (env : Nat → ConnAttemptEnv) (faults : Nat → Faults) (s : EventsState) :
    Except String EventsState :=
  match connPhase rsConfigured env with
  | .exited msg _ _ => .error msg
  | .finished false _ _ => .error "Could not set up db connections"
  | .finished true _ _ =>
    match eventsPhase eventTtl faults s with
    | .converged s' _ _ _ _ => .ok s'
    | .exitedFatal _ _ _ _ =>
      .error "Error on startup while attempting to initialize events collection"
    | .exhausted _ _ => .error "Could not setup events connections"

/-- Number of connection-loop iterations actually begun. -/
def connAttemptsMade (rsConfigured : Bool) (env : Nat → ConnAttemptEnv) : Nat :=
  match connPhase rsConfigured env with
  | .exited _ n _ => n
  | .finished _ n _ => n

/-- The provider selection and database bootstrap of
`RseApplication.__init__` (lines 106-115): `memcached` and `cassandra`
are the recognized auth-cache providers; any other name logs
"No auth_cache provider for: ..." and calls `sys.exit(1)` before
`init_database` is ever invoked.  The second component counts the
connection attempts made. -/
def rseInit (provider : String) (eventTtl : Int) (rsConfigured : Bool)
    (env : Nat → ConnAttemptEnv) (faults : Nat → Faults) (s : EventsState) :
    Except String EventsState × Nat :=
  if provider = "memcached" then
    (initDatabase eventTtl rsConfigured env faults s, connAttemptsMade rsConfigured env)
  else if provider = "cassandra" then
    (initDatabase eventTtl rsConfigured env faults s, connAttemptsMade rsConfigured env)
  else
    (.error ("No auth_cache provider for: " ++ provider), 0)

/-! ## Characterization of a fault-free body run -/

/-- Mutations the TTL-reconciliation step performs on the `ttl` index,
as a function of the configured `event-ttl` and the pre-existing `ttl`
index state. -/
def ttlMutsOf (eventTtl : Int) : Option (Option Int) → List Mutation
  | none => [Mutation.created "ttl"]
  | some info =>
    if info = some eventTtl then []
    else [Mutation.dropped "ttl", Mutation.created "ttl"]

/-- Mutations the deprecated-index and `get_events` steps perform. -/
def preTtlMuts (s : EventsState) : List Mutation :=
  (if s.idxUuidChannel then [Mutation.dropped "uuid_1_channel_1"] else []) ++
    (if s.idxCreatedAt1 then [Mutation.dropped "created_at_1"] else []) ++
    (if s.idxGetEvents then [] else [Mutation.created "get_events"])

/-- The store state a fault-free body run converges to: deprecated
indexes absent, `get_events` present, a single `ttl` index with the
configured expiry, and the counter document present (preserved if it
existed, seeded to `0` otherwise). -/
def nominalState (eventTtl : Int) (s : EventsState) : EventsState :=
  ⟨false, false, true, some (some eventTtl), some (s.counter.getD 0)⟩

/-- Index mutations of a fault-free body run. -/
def nominalMuts (eventTtl : Int) (s : EventsState) : List Mutation :=
  preTtlMuts s ++ ttlMutsOf eventTtl s.idxTtl

/-- Counter inserts of a fault-free body run. -/
def nominalInserts (s : EventsState) : Nat :=
  if s.counter.isSome then 0 else 1

@[simp] lemma noFaults_dropUuidChannel : noFaults.dropUuidChannel = none := rfl

@[simp] lemma noFaults_dropCreatedAt : noFaults.dropCreatedAt = none := rfl

@[simp] lemma noFaults_ensureGetEvents : noFaults.ensureGetEvents = none := rfl

@[simp] lemma noFaults_indexInfo : noFaults.indexInfo = none := rfl

@[simp] lemma noFaults_dropTtl : noFaults.dropTtl = none := rfl

@[simp] lemma noFaults_ensureTtl : noFaults.ensureTtl = none := rfl

@[simp] lemma noFaults_findCounter : noFaults.findCounter = none := rfl

@[simp] lemma noFaults_insertCounter : noFaults.insertCounter = none := rfl

@[simp] lemma noFaults_concurrentCounterInsert :
    noFaults.concurrentCounterInsert = false := rfl

lemma ttlEnsureAndSeed_noFaults (eventTtl : Int) (s : EventsState)
    (muts : List Mutation) :
    ttlEnsureAndSeed eventTtl noFaults s muts =
      (none,
        { s with
            idxTtl := if s.idxTtl.isSome then s.idxTtl else some (some eventTtl),
            counter := some (s.counter.getD 0) },
        muts ++ (if s.idxTtl.isSome then [] else [Mutation.created "ttl"]),
        nominalInserts s) := by
  rcases s with ⟨u, c1, g, t, cnt⟩
  cases t <;> cases cnt <;>
    simp [ttlEnsureAndSeed, ensureIndexPrim, nominalInserts]

lemma ttlReconcile_noFaults (eventTtl : Int) (s : EventsState)
    (muts : List Mutation) :
    ttlReconcile eventTtl noFaults s muts =
      (none,
        { s with
            idxTtl := some (some eventTtl),
            counter := some (s.counter.getD 0) },
        muts ++ ttlMutsOf eventTtl s.idxTtl,
        nominalInserts s) := by
  rcases s with ⟨u, c1, g, t, cnt⟩
  rcases t with _ | ⟨_ | v⟩
  · simp [ttlReconcile, ttlEnsureAndSeed_noFaults, ttlMutsOf, nominalInserts]
  · simp [ttlReconcile, ttlEnsureAndSeed_noFaults, ttlMutsOf, nominalInserts]
  · by_cases hv : v = eventTtl
    · subst hv
      simp [ttlReconcile, ttlEnsureAndSeed_noFaults, ttlMutsOf, nominalInserts]
    · simp [ttlReconcile, ttlEnsureAndSeed_noFaults, ttlMutsOf, nominalInserts, hv]

/-- A fault-free run of the loop body raises nothing and drives the store
to `nominalState`, performing exactly `nominalMuts` index mutations and
`nominalInserts` counter inserts. -/
lemma convergeBody_noFaults (eventTtl : Int) (s : EventsState) :
    convergeBody eventTtl noFaults s =
      (none, nominalState eventTtl s, nominalMuts eventTtl s, nominalInserts s) := by
  rcases s with ⟨u, c1, g, t, cnt⟩
  cases u <;> cases c1 <;> cases g <;>
    simp [convergeBody, guardedDrop, dropIndexPrim, ensureIndexPrim,
      ttlReconcile_noFaults, nominalState, nominalMuts, preTtlMuts, nominalInserts,
      Exc.isOperationFailure]

/-! ## Helper accessors, concrete stores and environments -/

/-- Exception component of a body run. -/
def bodyErr (r : BodyResult) : Option Exc := r.1

/-- Store state component of a body run. -/
def bodyState (r : BodyResult) : EventsState := r.2.1

/-- Index-mutation component of a body run. -/
def bodyMuts (r : BodyResult) : List Mutation := r.2.2.1

/-- Counter-insert count of a body run. -/
def bodyInserts (r : BodyResult) : Nat := r.2.2.2

/-- The sublist of mutations acting on the index named `ttl`. -/
def ttlOnly : List Mutation → List Mutation
  | [] => []
  | m :: rest => if m.name = "ttl" then m :: ttlOnly rest else ttlOnly rest

/-- A store that already satisfies the desired state for `event-ttl = 120`. -/
def convergedStore : EventsState := ⟨false, false, true, some (some 120), some 0⟩

/-- A store converged except for the counter document, which is absent. -/
def emptyCounterStore : EventsState := ⟨false, false, true, some (some 120), none⟩

/-- A store whose `ttl` index carries no `expireAfterSeconds` key. -/
def ttlNoExpiryStore : EventsState := ⟨false, false, true, some none, some 0⟩

/-- Every connection attempt succeeds. -/
def allOkEnv : Nat → ConnAttemptEnv := fun _ => ⟨none, none⟩

/-- Every connection attempt raises `AutoReconnect` on the master client. -/
def allTransientEnv : Nat → ConnAttemptEnv := fun _ => ⟨some Exc.autoReconnect, none⟩

/-- Every connection attempt raises `AutoReconnect` while building the
general (replica-set) connection. -/
def rsTransientEnv : Nat → ConnAttemptEnv := fun _ => ⟨none, some Exc.autoReconnect⟩

/-- No faults on any iteration of the events loop. -/
def cleanFaultsEnv : Nat → Faults := fun _ => noFaults

/-- Every iteration loses the counter-seeding race to a concurrent
bootstrap. -/
def raceFaultsEnv : Nat → Faults :=
  fun _ => { noFaults with concurrentCounterInsert := true }

/-- Faults injecting exception `e` into the first deprecated-index
removal. -/
def dropUuidFault (e : Exc) : Faults := { noFaults with dropUuidChannel := some e }

/-- The first iteration hits `AutoReconnect` on the deprecated-index
removal; later iterations are fault-free. -/
def dropUuidAutoRecOnceEnv : Nat → Faults :=
  fun i => if i = 0 then dropUuidFault Exc.autoReconnect else noFaults

lemma ttlOnly_append (a b : List Mutation) :
    ttlOnly (a ++ b) = ttlOnly a ++ ttlOnly b := by
  induction a with
  | nil => rfl
  | cons m rest ih =>
    simp only [List.cons_append, ttlOnly]
    split <;> simp [ih]

lemma ttlOnly_preTtlMuts (s : EventsState) : ttlOnly (preTtlMuts s) = [] := by
  rcases s with ⟨u, c1, g, t, cnt⟩
  cases u <;> cases c1 <;> cases g <;>
    simp [preTtlMuts, ttlOnly, ttlOnly_append, Mutation.name]

lemma ttlOnly_ttlMutsOf (eventTtl : Int) (t : Option (Option Int)) :
    ttlOnly (ttlMutsOf eventTtl t) = ttlMutsOf eventTtl t := by
  rcases t with _ | info
  · simp [ttlMutsOf, ttlOnly, Mutation.name]
  · by_cases hi : info = some eventTtl <;>
      simp [ttlMutsOf, ttlOnly, Mutation.name, hi]

lemma ttlOnly_nominalMuts (eventTtl : Int) (s : EventsState) :
    ttlOnly (nominalMuts eventTtl s) = ttlMutsOf eventTtl s.idxTtl := by
  simp [nominalMuts, ttlOnly_append, ttlOnly_preTtlMuts, ttlOnly_ttlMutsOf]

/-! ## Stepping lemmas for the two retry loops -/

lemma eventsLoop_step_converged {eventTtl : Int} {F : Nat → Faults}
    {fuel i : Nat} {s sNew : EventsState} {sl : Nat} {muts : List Mutation}
    {ins : Nat} (h : convergeBody eventTtl (F i) s = (none, sNew, muts, ins)) :
    eventsLoop eventTtl F (fuel + 1) i s sl =
      .converged sNew muts ins (i + 1) sl := by
  simp only [eventsLoop, h]

lemma eventsLoop_step_transient {eventTtl : Int} {F : Nat → Faults}
    {fuel i : Nat} {s sNew : EventsState} {sl : Nat} {muts : List Mutation}
    {ins : Nat}
    (h : convergeBody eventTtl (F i) s = (some Exc.autoReconnect, sNew, muts, ins)) :
    eventsLoop eventTtl F (fuel + 1) i s sl =
      eventsLoop eventTtl F fuel (i + 1) sNew (sl + 1) := by
  simp only [eventsLoop, h]

lemma eventsLoop_step_fatal {eventTtl : Int} {F : Nat → Faults}
    {fuel i : Nat} {s sNew : EventsState} {sl : Nat} {muts : List Mutation}
    {ins : Nat} {e : Exc} (he : e ≠ Exc.autoReconnect)
    (h : convergeBody eventTtl (F i) s = (some e, sNew, muts, ins)) :
    eventsLoop eventTtl F (fuel + 1) i s sl = .exitedFatal e sNew (i + 1) sl := by
  cases e <;> simp only [eventsLoop, h] <;> simp at he ⊢

lemma connLoop_all_transient (rs : Bool) (env : Nat → ConnAttemptEnv) :
    ∀ (fuel i : Nat) (ok : Bool) (sl : Nat),
      (∀ j, j < fuel → connIter rs (env (i + j)) = .transientRetry) →
      connLoop rs env fuel i ok sl = .finished ok (i + fuel) (sl + fuel) := by
  intro fuel
  induction fuel with
  | zero => intro i ok sl _; simp [connLoop]
  | succ n ih =>
    intro i ok sl h
    have h0 : connIter rs (env i) = .transientRetry := by
      simpa using h 0 (Nat.succ_pos n)
    have hrest : ∀ j, j < n → connIter rs (env (i + 1 + j)) = .transientRetry := by
      intro j hj
      have := h (j + 1) (Nat.succ_lt_succ hj)
      simpa [Nat.add_assoc, Nat.add_comm 1 j] using this
    calc connLoop rs env (n + 1) i ok sl
        = connLoop rs env n (i + 1) ok (sl + 1) := by simp only [connLoop, h0]
      _ = .finished ok (i + 1 + n) (sl + 1 + n) := ih (i + 1) ok (sl + 1) hrest
      _ = .finished ok (i + (n + 1)) (sl + (n + 1)) := by
          simp [Nat.add_assoc, Nat.add_comm 1 n]

/-- A body run whose removal of the deprecated `uuid_1_channel_1` index
raises an exception outside the `OperationFailure` class stops right
there, leaving the store untouched. -/
lemma convergeBody_dropUuidFault (e : Exc) (he : e.isOperationFailure = false)
    (eventTtl : Int) (s : EventsState) :
    convergeBody eventTtl (dropUuidFault e) s = (some e, s, [], 0) := by
  simp [convergeBody, dropUuidFault, guardedDrop, dropIndexPrim, he]

/-! ## Claims -/

/-- C1: the claim says a duplicate-key failure on the losing counter
insert is treated as a benign already-converged outcome and startup does
not abort.  The code disagrees: `DuplicateKeyError` is caught by no inner
handler, reaches the generic `except Exception` of the events loop, and
`init_database` exits.  This theorem evaluates the code at the failing
input: an empty counters collection where a concurrent bootstrap inserts
the document between `find_one` and `insert` — `init_database` aborts
with the fatal events-collection diagnostic even though the end state
holds exactly one counter document `{_id: 'last_known_id', c: 0}`. -/
theorem counter_race_dupkey_aborts_startup :
    initDatabase 120 false allOkEnv raceFaultsEnv emptyCounterStore =
      .error "Error on startup while attempting to initialize events collection" ∧
    eventsPhase 120 raceFaultsEnv emptyCounterStore =
      .exitedFatal Exc.dupKey convergedStore 1 0 := ⟨rfl, rfl⟩

/-- C2: the claim says a successful iteration terminates each of the two
retry loops immediately.  True of the events loop (which has a `break`),
false of the connection loop: with every attempt succeeding, the
connection loop still runs all ten iterations (the source sets
`db_connections_ok = True` without `break`), while the events loop stops
after one. -/
theorem success_terminates_only_events_loop :
    connPhase false allOkEnv = ConnOutcome.finished true 10 0 ∧
    eventsPhase 120 cleanFaultsEnv convergedStore =
      EventsOutcome.converged convergedStore [] 0 1 0 := ⟨rfl, rfl⟩

/-- C3 counterexample: with a replica-set name configured and the driver
raising the transient `AutoReconnect` while establishing the
topology-aware general handle, the first iteration exits immediately via
the inner `except Exception` handler — one attempt, zero sleeps, no
retry — contradicting the claim that every transient connect failure
sleeps 0.5 and retries. -/
theorem rs_transient_failure_exits_not_retries :
    connIter true (rsTransientEnv 0) = IterOutcome.fatalRsExit ∧
    connLoop true rsTransientEnv 10 0 false 0 =
      ConnOutcome.exited "Mongo connection exception" 1 0 := ⟨rfl, rfl⟩

/-- Modelled from the amended claim C3: a transient (`AutoReconnect`)
failure of the master-handle step, or of the general-handle step when no
replica set is configured, retries; when a replica-set name is
configured, ANY failure of the topology-aware general-handle
establishment is fatal; every other failure is fatal. -/
def amendedConnPolicy (rsConfigured : Bool) (a : ConnAttemptEnv) : IterOutcome :=
  match a.master with
  | some e =>
    if e = Exc.autoReconnect then .transientRetry else .fatalGeneralExit
  | none =>
    match a.general with
    | none => .success
    | some e =>
      if rsConfigured then .fatalRsExit
      else if e = Exc.autoReconnect then .transientRetry else .fatalGeneralExit

/-- C3 (amended): a transient failure during the master-handle step, or
during the general-handle step when no replica set is configured, sleeps
0.5 and retries within the shared 10-attempt budget (each retry consumes
one iteration of the same loop and adds one sleep); any failure of the
topology-aware general-handle establishment, transient included, and any
non-transient failure elsewhere abort startup immediately. -/
theorem connect_retry_policy_amended :
    (∀ (rs : Bool) (a : ConnAttemptEnv), connIter rs a = amendedConnPolicy rs a) ∧
    (∀ (rs : Bool) (env : Nat → ConnAttemptEnv) (fuel i : Nat) (ok : Bool)
      (sl : Nat), connIter rs (env i) = IterOutcome.transientRetry →
      connLoop rs env (fuel + 1) i ok sl =
        connLoop rs env fuel (i + 1) ok (sl + 1)) := by
  constructor
  · intro rs a
    rcases a with ⟨m, g⟩
    rcases m with _ | em
    · rcases g with _ | eg
      · cases rs <;> simp [connIter, amendedConnPolicy]
      · cases rs <;> cases eg <;> simp [connIter, amendedConnPolicy]
    · cases em <;> simp [connIter, amendedConnPolicy]
  · intro rs env fuel i ok sl h
    simp only [connLoop, h]

/-- Witness for C3 (amended) at a concrete transient environment. -/
theorem connect_retry_policy_amended_witness :
    connIter false (allTransientEnv 0) = IterOutcome.transientRetry ∧
    connLoop false allTransientEnv 10 0 false 0 =
      connLoop false allTransientEnv 9 1 false 1 :=
  ⟨rfl, connect_retry_policy_amended.2 false allTransientEnv 9 0 false 0 rfl⟩

/-- A store that still carries the deprecated `uuid_1_channel_1` index. -/
def deprecatedStore : EventsState := ⟨true, false, true, some (some 120), some 0⟩

/-- C4 counterexample: (a) an `OperationFailure` other than "index does
not exist" raised by the removal is also swallowed — the loop converges
in one iteration with no mutation (and the deprecated index still
present), so the failure is neither "exactly index-does-not-exist" nor
fatal; (b) an `AutoReconnect` raised by the removal is retried (two
iterations, one sleep) rather than aborting startup. -/
theorem removal_failure_not_always_fatal :
    eventsPhase 120 (fun _ => dropUuidFault Exc.opFailOther) deprecatedStore =
      EventsOutcome.converged deprecatedStore [] 0 1 0 ∧
    eventsPhase 120 dropUuidAutoRecOnceEnv deprecatedStore =
      EventsOutcome.converged convergedStore
        [Mutation.dropped "uuid_1_channel_1"] 0 2 1 := ⟨rfl, rfl⟩

/-- C4 (amended): the removal of each deprecated index treats the whole
`OperationFailure` class (which contains "index does not exist") as
already-converged success and continues; an `AutoReconnect` from the
removal triggers the transient retry of the whole convergence sequence
(0.5 sleep, shared budget) instead of aborting; any other failure aborts
startup at once. -/
theorem removal_failure_classification :
    (∀ (e : Exc) (present : Bool), e.isOperationFailure = true →
        guardedDrop (some e) present = Except.ok (present, false)) ∧
    (∀ (eventTtl : Int) (s : EventsState),
        eventsPhase eventTtl dropUuidAutoRecOnceEnv s =
          EventsOutcome.converged (nominalState eventTtl s)
            (nominalMuts eventTtl s) (nominalInserts s) 2 1) ∧
    (∀ (eventTtl : Int) (s : EventsState),
        eventsPhase eventTtl (fun _ => dropUuidFault Exc.otherError) s =
          EventsOutcome.exitedFatal Exc.otherError s 1 0) := by
  refine ⟨?_, ?_, ?_⟩
  · intro e present h
    cases e <;> simp_all [guardedDrop, dropIndexPrim, Exc.isOperationFailure]
  · intro eventTtl s
    have h0 : convergeBody eventTtl (dropUuidAutoRecOnceEnv 0) s =
        (some Exc.autoReconnect, s, [], 0) :=
      convergeBody_dropUuidFault Exc.autoReconnect rfl eventTtl s
    have h1 : convergeBody eventTtl (dropUuidAutoRecOnceEnv 1) s =
        (none, nominalState eventTtl s, nominalMuts eventTtl s, nominalInserts s) :=
      convergeBody_noFaults eventTtl s
    have e1 : eventsPhase eventTtl dropUuidAutoRecOnceEnv s =
        eventsLoop eventTtl dropUuidAutoRecOnceEnv 9 1 s 1 :=
      eventsLoop_step_transient h0
    rw [e1, eventsLoop_step_converged h1]
  · intro eventTtl s
    have h0 : convergeBody eventTtl ((fun _ => dropUuidFault Exc.otherError) 0) s =
        (some Exc.otherError, s, [], 0) :=
      convergeBody_dropUuidFault Exc.otherError rfl eventTtl s
    exact eventsLoop_step_fatal (by simp) h0

/-- Witness for C4 (amended): a duplicate-key-class operation failure on
the removal is swallowed with the index state unchanged. -/
theorem removal_failure_classification_witness :
    Exc.opFailOther.isOperationFailure = true ∧
    guardedDrop (some Exc.opFailOther) true = Except.ok (true, false) :=
  ⟨rfl, removal_failure_classification.1 Exc.opFailOther true rfl⟩

/-- C5: for any pre-existing `ttl` index, a fault-free convergence run
leaves a single `ttl` index carrying the configured expiry: if the
recorded expiry differs from the configured `event-ttl`, the index is
dropped and then recreated (the only two `ttl` mutations, in that order,
so two TTL indexes never coexist — the model keys indexes by name); if
it matches, the index is untouched and no `ttl` mutation happens. -/
theorem ttl_reconciliation_matches_config (eventTtl : Int) (s : EventsState)
    (info : Option Int) (h : s.idxTtl = some info) :
    (info ≠ some eventTtl →
      (bodyState (convergeBody eventTtl noFaults s)).idxTtl = some (some eventTtl) ∧
      ttlOnly (bodyMuts (convergeBody eventTtl noFaults s)) =
        [Mutation.dropped "ttl", Mutation.created "ttl"]) ∧
    (info = some eventTtl →
      (bodyState (convergeBody eventTtl noFaults s)).idxTtl = some info ∧
      ttlOnly (bodyMuts (convergeBody eventTtl noFaults s)) = []) := by
  have hb := convergeBody_noFaults eventTtl s
  constructor
  · intro hne
    rw [hb]
    exact ⟨by simp [bodyState, nominalState],
      by simp [bodyMuts, ttlOnly_nominalMuts, h, ttlMutsOf, hne]⟩
  · intro heq
    subst heq
    rw [hb]
    exact ⟨by simp [bodyState, nominalState],
      by simp [bodyMuts, ttlOnly_nominalMuts, h, ttlMutsOf]⟩

/-- Witness for C5 at the spec's scenario: existing expiry 120,
configured expiry 60 — the run ends with a single `ttl` index at 60,
produced by a drop followed by a create. -/
theorem ttl_reconciliation_matches_config_witness :
    convergedStore.idxTtl = some (some 120) ∧
    ((some 120 : Option Int) ≠ some 60) ∧
    (bodyState (convergeBody 60 noFaults convergedStore)).idxTtl = some (some 60) ∧
    ttlOnly (bodyMuts (convergeBody 60 noFaults convergedStore)) =
      [Mutation.dropped "ttl", Mutation.created "ttl"] := by
  refine ⟨rfl, by decide, ?_⟩
  exact (ttl_reconciliation_matches_config 60 convergedStore (some 120) rfl).1
    (by decide)

/-- C6: starting from an absent counter document, a fault-free run seeds
exactly one document `{_id: 'last_known_id', c: 0}` (the model keys the
counters collection by `_id`, so at most one such document exists); a
second run inserts nothing and leaves `c` unchanged at 0. -/
theorem counter_seeding_from_empty (eventTtl : Int) (s : EventsState)
    (h : s.counter = none) :
    (bodyState (convergeBody eventTtl noFaults s)).counter = some 0 ∧
    bodyInserts (convergeBody eventTtl noFaults s) = 1 ∧
    (bodyState (convergeBody eventTtl noFaults
        (bodyState (convergeBody eventTtl noFaults s)))).counter = some 0 ∧
    bodyInserts (convergeBody eventTtl noFaults
        (bodyState (convergeBody eventTtl noFaults s))) = 0 := by
  rw [convergeBody_noFaults eventTtl s]
  have hs : bodyState
      (none, nominalState eventTtl s, nominalMuts eventTtl s, nominalInserts s) =
      nominalState eventTtl s := rfl
  rw [hs, convergeBody_noFaults eventTtl (nominalState eventTtl s)]
  simp [bodyState, bodyInserts, nominalState, nominalInserts, h]

/-- Witness for C6 from a store with no counter document. -/
theorem counter_seeding_from_empty_witness :
    emptyCounterStore.counter = none ∧
    (bodyState (convergeBody 120 noFaults emptyCounterStore)).counter = some 0 ∧
    bodyInserts (convergeBody 120 noFaults emptyCounterStore) = 1 ∧
    (bodyState (convergeBody 120 noFaults
        (bodyState (convergeBody 120 noFaults emptyCounterStore)))).counter = some 0 ∧
    bodyInserts (convergeBody 120 noFaults
        (bodyState (convergeBody 120 noFaults emptyCounterStore))) = 0 :=
  ⟨rfl, counter_seeding_from_empty 120 emptyCounterStore rfl⟩

/-- C7: a fault-free convergence run always completes, and a second run
from the store it produced performs no index mutation at all (and also
completes without error). -/
theorem convergence_idempotent_second_run (eventTtl : Int) (s : EventsState) :
    bodyErr (convergeBody eventTtl noFaults s) = none ∧
    bodyMuts (convergeBody eventTtl noFaults
        (bodyState (convergeBody eventTtl noFaults s))) = [] ∧
    bodyErr (convergeBody eventTtl noFaults
        (bodyState (convergeBody eventTtl noFaults s))) = none := by
  rw [convergeBody_noFaults eventTtl s]
  have hs : bodyState
      (none, nominalState eventTtl s, nominalMuts eventTtl s, nominalInserts s) =
      nominalState eventTtl s := rfl
  rw [hs, convergeBody_noFaults eventTtl (nominalState eventTtl s)]
  simp [bodyErr, bodyMuts, nominalMuts, preTtlMuts, nominalState, ttlMutsOf]

/-- C8: when every one of the ten connection attempts fails transiently
(store never reachable), `init_database` aborts: the logged diagnostic is
exactly the database-unavailability message "Could not set up db
connections" and no context (`.ok` with connection handles) is
produced. -/
theorem exhausted_connect_retries_abort (eventTtl : Int) (rs : Bool)
    (env : Nat → ConnAttemptEnv) (faults : Nat → Faults) (s : EventsState)
    (h : ∀ i, i < 10 → connIter rs (env i) = IterOutcome.transientRetry) :
    initDatabase eventTtl rs env faults s =
      .error "Could not set up db connections" := by
  have hc : connPhase rs env = .finished false 10 10 := by
    have hmain := connLoop_all_transient rs env 10 0 false 0
      (by intro j hj; simpa using h j hj)
    simpa [connPhase] using hmain
  simp [initDatabase, hc]

/-- Witness for C8 with every attempt raising `AutoReconnect`. -/
theorem exhausted_connect_retries_abort_witness :
    (∀ i, i < 10 →
      connIter false (allTransientEnv i) = IterOutcome.transientRetry) ∧
    initDatabase 120 false allTransientEnv cleanFaultsEnv convergedStore =
      .error "Could not set up db connections" :=
  ⟨fun _ _ => rfl,
    exhausted_connect_retries_abort 120 false allTransientEnv cleanFaultsEnv
      convergedStore (fun _ _ => rfl)⟩

/-- C9: any provider name other than `memcached` and `cassandra` makes
startup abort at once (`sys.exit(1)`, modelled as the error result
carrying the logged diagnostic) with zero database connection attempts
made. -/
theorem unknown_provider_aborts_before_connect (provider : String)
    (eventTtl : Int) (rs : Bool) (env : Nat → ConnAttemptEnv)
    (faults : Nat → Faults) (s : EventsState)
    (h1 : provider ≠ "memcached") (h2 : provider ≠ "cassandra") :
    rseInit provider eventTtl rs env faults s =
      (.error ("No auth_cache provider for: " ++ provider), 0) := by
  simp [rseInit, h1, h2]

/-- Witness for C9 at the spec's example provider name `redis`. -/
theorem unknown_provider_aborts_before_connect_witness :
    ("redis" ≠ "memcached" ∧ "redis" ≠ "cassandra") ∧
    rseInit "redis" 120 false allOkEnv cleanFaultsEnv convergedStore =
      (.error ("No auth_cache provider for: " ++ "redis"), 0) :=
  ⟨⟨by decide, by decide⟩,
    unknown_provider_aborts_before_connect "redis" 120 false allOkEnv
      cleanFaultsEnv convergedStore (by decide) (by decide)⟩

/-- C10: an existing `ttl` index with no `expireAfterSeconds` key at all
is treated as mismatched — it is dropped and recreated with the
configured `event-ttl` as expiry, exactly like a differing value. -/
theorem ttl_without_expiry_dropped_and_recreated (eventTtl : Int)
    (s : EventsState) (h : s.idxTtl = some none) :
    (bodyState (convergeBody eventTtl noFaults s)).idxTtl = some (some eventTtl) ∧
    ttlOnly (bodyMuts (convergeBody eventTtl noFaults s)) =
      [Mutation.dropped "ttl", Mutation.created "ttl"] := by
  rw [convergeBody_noFaults eventTtl s]
  exact ⟨by simp [bodyState, nominalState],
    by simp [bodyMuts, ttlOnly_nominalMuts, h, ttlMutsOf]⟩

/-- Witness for C10 at a store whose `ttl` index lacks the expiry key. -/
theorem ttl_without_expiry_dropped_and_recreated_witness :
    ttlNoExpiryStore.idxTtl = some none ∧
    (bodyState (convergeBody 120 noFaults ttlNoExpiryStore)).idxTtl =
      some (some 120) ∧
    ttlOnly (bodyMuts (convergeBody 120 noFaults ttlNoExpiryStore)) =
      [Mutation.dropped "ttl", Mutation.created "ttl"] :=
  ⟨rfl, ttl_without_expiry_dropped_and_recreated 120 ttlNoExpiryStore rfl⟩

end RSE
